import Mathlib

/-!
Verification of the draw-command protocol and interpreter of the emigui
frontend (src/docs/frontend.js) against its specification.

The JavaScript code is shallowly embedded: JS numbers are modelled as exact
rationals (ℚ), colors / fonts / alignments as strings, and the mutable 2D
canvas context as a trace of surface operations (`Op`).  The interpreter
`paintCommand` returns the list of surface operations it issues, in order.
Arc angles are recorded as exact rational multiples of π: the source passes
the radian values `0` and `2 * Math.PI`, recorded here as `0` and `2`.
-/

namespace Emigui

/-- A 2D point, the `x`/`y` record used throughout frontend.js. -/
structure Point where
  x : ℚ
  y : ℚ
deriving DecidableEq, Repr

/-- The drawing surface (the canvas): only its dimensions are observable to
the interpreter (`canvas.width`, `canvas.height`). -/
structure Surface where
  width : ℚ
  height : ℚ
deriving DecidableEq, Repr

/-- One primitive surface operation of the 2D context, as invoked by
`paintCommand`.  Assignments to `fillStyle`, `strokeStyle`, `lineWidth`,
`font` and `textAlign` are recorded as explicit set operations.  In `arc`,
`startAnglePi` and `endAnglePi` are the start and end angles measured in
multiples of π (the source passes `0` and `2 * Math.PI`). -/
inductive Op where
  | setFillStyle (style : String)
  | setStrokeStyle (style : String)
  | setLineWidth (w : ℚ)
  | setFont (font : String)
  | setTextAlign (align : String)
  | beginPath
  | closePath
  | moveTo (p : Point)
  | lineTo (p : Point)
  | quadraticCurveTo (ctrl endp : Point)
  | arc (center : Point) (radius : ℚ) (startAnglePi endAnglePi : ℚ)
      (anticlockwise : Bool)
  | fill
  | stroke
  | clearRect (x y w h : ℚ)
  | fillText (s : String) (p : Point)
deriving DecidableEq, Repr

/-- A command object as received by `paintCommand`.  JavaScript objects are
dynamically typed: a command is a `kind` tag together with every field any
variant may carry (the interpreter only reads the fields relevant to the
matched `kind`; the source fields `from` and `to` are spelled `from_` and
`to_` because both are reserved tokens in Lean). -/
structure Cmd where
  kind : String
  fill_style : String
  stroke_style : String
  line_width : ℚ
  from_ : Point
  to_ : Point
  center : Point
  radius : ℚ
  pos : Point
  size : Point
  corner_radius : ℚ
  text : String
  font : String
  text_align : String
deriving DecidableEq, Repr

/-- The interpreter `paintCommand(canvas, cmd)` of frontend.js, embedded as
the trace of surface operations it issues, in order.  Each `if` branch
mirrors one `case` of the source `switch (cmd.kind)`; the final `[]` is the
implicit fall-through of the `switch` for an unrecognized `kind`. -/
def paintCommand (canvas : Surface) (cmd : Cmd) : List Op :=
  if cmd.kind = "clear" then
    [Op.setFillStyle cmd.fill_style,
     Op.clearRect 0 0 canvas.width canvas.height]
  else if cmd.kind = "line" then
    [Op.beginPath,
     Op.setLineWidth cmd.line_width,
     Op.setStrokeStyle cmd.stroke_style,
     Op.moveTo cmd.from_,
     Op.lineTo cmd.to_,
     Op.stroke]
  else if cmd.kind = "circle" then
    [Op.setFillStyle cmd.fill_style,
     Op.beginPath,
     Op.arc cmd.center cmd.radius 0 2 false,
     Op.fill]
  else if cmd.kind = "rounded_rect" then
    let x := cmd.pos.x
    let y := cmd.pos.y
    let width := cmd.size.x
    let height := cmd.size.y
    let r := cmd.corner_radius
    [Op.setFillStyle cmd.fill_style,
     Op.beginPath,
     Op.moveTo ⟨x + r, y⟩,
     Op.lineTo ⟨x + width - r, y⟩,
     Op.quadraticCurveTo ⟨x + width, y⟩ ⟨x + width, y + r⟩,
     Op.lineTo ⟨x + width, y + height - r⟩,
     Op.quadraticCurveTo ⟨x + width, y + height⟩ ⟨x + width - r, y + height⟩,
     Op.lineTo ⟨x + r, y + height⟩,
     Op.quadraticCurveTo ⟨x, y + height⟩ ⟨x, y + height - r⟩,
     Op.lineTo ⟨x, y + r⟩,
     Op.quadraticCurveTo ⟨x, y⟩ ⟨x + r, y⟩,
     Op.closePath,
     Op.fill]
  else if cmd.kind = "text" then
    [Op.setFont cmd.font,
     Op.setFillStyle cmd.fill_style,
     Op.setTextAlign cmd.text_align,
     Op.fillText cmd.text cmd.pos]
  else
    []

/-- The per-frame input snapshot handed to the logic layer by `paint_gui`:
current pointer position and surface dimensions. -/
structure InputSnapshot where
  mouse_pos : Point
  screen_size : Point
deriving DecidableEq, Repr

/-- The origin point, used as a default payload for command fields a given
variant does not use. -/
def pzero : Point := ⟨0, 0⟩

/-- Build a `clear` command carrying only its `fill_style` payload. -/
def mkClear (fill_style : String) : Cmd :=
  ⟨"clear", fill_style, "", 0, pzero, pzero, pzero, 0, pzero, pzero, 0, "", "", ""⟩

/-- Build a `circle` command from its payload fields. -/
def mkCircle (center : Point) (radius : ℚ) (fill_style : String) : Cmd :=
  ⟨"circle", fill_style, "", 0, pzero, pzero, center, radius, pzero, pzero, 0, "", "", ""⟩

/-- Build a `rounded_rect` command from its payload fields. -/
def mkRoundedRect (pos size : Point) (corner_radius : ℚ) (fill_style : String) : Cmd :=
  ⟨"rounded_rect", fill_style, "", 0, pzero, pzero, pzero, 0, pos, size, corner_radius, "", "", ""⟩

/-- Build a command with an arbitrary `kind` tag and empty payload, as a
dynamically-typed producer could (e.g. an unrecognized kind "triangle"). -/
def mkKindOnly (kind : String) : Cmd :=
  ⟨kind, "", "", 0, pzero, pzero, pzero, 0, pzero, pzero, 0, "", "", ""⟩

/-- The frame driver `paint_gui(canvas, mouse_pos)` of frontend.js, with the
logic layer (`rust_gui`) passed explicitly as a function from the input
snapshot to a command sequence.  It builds the input snapshot from the
pointer position and the canvas dimensions, invokes the logic layer on it,
and interprets the resulting commands in order with a `for` loop, here a
left fold accumulating the issued surface operations. -/
def paint_gui (canvas : Surface) (logic : InputSnapshot → List Cmd)
    (mouse_pos : Point) : List Op :=
  let input : InputSnapshot := ⟨mouse_pos, ⟨canvas.width, canvas.height⟩⟩
  (logic input).foldl (fun ops cmd => ops ++ paintCommand canvas cmd) []

/-- `paint_gui` with the logic layer's exceptional control flow made
explicit: `rust_gui` may throw (e.g. the wasm call or `JSON.parse` fails),
and `paint_gui` wraps it in no try/catch, so a failure propagates to the
caller before the interpretation loop runs.  An `Except.error` result means
the exception escaped `paint_gui` and no surface operation was issued. -/
def paint_gui_except (canvas : Surface)
    (logic : InputSnapshot → Except String (List Cmd))
    (mouse_pos : Point) : Except String (List Op) :=
  let input : InputSnapshot := ⟨mouse_pos, ⟨canvas.width, canvas.height⟩⟩
  match logic input with
  | Except.error e => Except.error e
  | Except.ok cmds =>
      Except.ok (cmds.foldl (fun ops cmd => ops ++ paintCommand canvas cmd) [])

/-- The bounding client rectangle of the canvas in the page layout: only its
top-left corner is read by the input adapter. -/
structure DomRect where
  left : ℚ
  top : ℚ
deriving DecidableEq, Repr

/-- A raw pointer event, carrying absolute client-space coordinates. -/
structure MouseEvent where
  clientX : ℚ
  clientY : ℚ
deriving DecidableEq, Repr

/-- The input adapter `mouse_pos_from_event(canvas, evt)` of frontend.js.
The source reads `canvas.getBoundingClientRect()`; here the bounding
rectangle is passed directly. -/
def mouse_pos_from_event (rect : DomRect) (evt : MouseEvent) : Point :=
  ⟨evt.clientX - rect.left, evt.clientY - rect.top⟩

/-- A structural (JSON-like) value: the representation commands and input
snapshots cross the logic-layer boundary in (`JSON.stringify` /
`JSON.parse` around `wasm_bindgen.show_gui`).  Numbers are exact rationals. -/
inductive JValue where
  | num (q : ℚ)
  | str (s : String)
  | arr (elems : List JValue)
  | obj (fields : List (String × JValue))

/-- Look up a field by name in a structural object's field list. -/
def getField : List (String × JValue) → String → Option JValue
  | [], _ => none
  | (k, v) :: rest, name => if k = name then some v else getField rest name

/-- Modelled from the spec: the logic-layer boundary schema of §3/§4.1.  The
serialization endpoint on the logic-layer side (the Rust/wasm module behind
`wasm_bindgen.show_gui`) is not part of src/, so the command value type is
modelled as the closed tagged union the spec gives, one variant per `kind`
with exactly the fields §3 requires. -/
inductive Command where
  | clear (fill_style : String)
  | line (from_ to_ : Point) (line_width : ℚ) (stroke_style : String)
  | circle (center : Point) (radius : ℚ) (fill_style : String)
  | rounded_rect (pos size : Point) (corner_radius : ℚ) (fill_style : String)
  | text (pos : Point) (text : String) (font : String) (fill_style : String)
      (text_align : String)
deriving DecidableEq, Repr

/-- Serialize a point to its structural representation. -/
def encodePoint (p : Point) : JValue :=
  JValue.obj [("x", JValue.num p.x), ("y", JValue.num p.y)]

/-- Deserialize a point from its structural representation. -/
def decodePoint : JValue → Option Point
  | JValue.obj fields =>
      match getField fields "x", getField fields "y" with
      | some (JValue.num x), some (JValue.num y) => some ⟨x, y⟩
      | _, _ => none
  | _ => none

/-- Modelled from the spec: field-for-field structural serialization of one
command (§4.1), tagged by its `kind`. -/
def encodeCommand : Command → JValue
  | Command.clear fs =>
      JValue.obj [("kind", JValue.str "clear"), ("fill_style", JValue.str fs)]
  | Command.line f t lw ss =>
      JValue.obj [("kind", JValue.str "line"), ("from", encodePoint f),
        ("to", encodePoint t), ("line_width", JValue.num lw),
        ("stroke_style", JValue.str ss)]
  | Command.circle c r fs =>
      JValue.obj [("kind", JValue.str "circle"), ("center", encodePoint c),
        ("radius", JValue.num r), ("fill_style", JValue.str fs)]
  | Command.rounded_rect p s cr fs =>
      JValue.obj [("kind", JValue.str "rounded_rect"), ("pos", encodePoint p),
        ("size", encodePoint s), ("corner_radius", JValue.num cr),
        ("fill_style", JValue.str fs)]
  | Command.text p t f fs ta =>
      JValue.obj [("kind", JValue.str "text"), ("pos", encodePoint p),
        ("text", JValue.str t), ("font", JValue.str f),
        ("fill_style", JValue.str fs), ("text_align", JValue.str ta)]

/-- Modelled from the spec: structural deserialization of one command,
dispatching on the `kind` tag and reading the fields §3 requires for that
variant. -/
def decodeCommand : JValue → Option Command
  | JValue.obj fields =>
      match getField fields "kind" with
      | some (JValue.str k) =>
          if k = "clear" then
            match getField fields "fill_style" with
            | some (JValue.str fs) => some (Command.clear fs)
            | _ => none
          else if k = "line" then
            match getField fields "from", getField fields "to",
                getField fields "line_width", getField fields "stroke_style" with
            | some fv, some tv, some (JValue.num lw), some (JValue.str ss) =>
                match decodePoint fv, decodePoint tv with
                | some f, some t => some (Command.line f t lw ss)
                | _, _ => none
            | _, _, _, _ => none
          else if k = "circle" then
            match getField fields "center", getField fields "radius",
                getField fields "fill_style" with
            | some cv, some (JValue.num r), some (JValue.str fs) =>
                match decodePoint cv with
                | some c => some (Command.circle c r fs)
                | none => none
            | _, _, _ => none
          else if k = "rounded_rect" then
            match getField fields "pos", getField fields "size",
                getField fields "corner_radius", getField fields "fill_style" with
            | some pv, some sv, some (JValue.num cr), some (JValue.str fs) =>
                match decodePoint pv, decodePoint sv with
                | some p, some s => some (Command.rounded_rect p s cr fs)
                | _, _ => none
            | _, _, _, _ => none
          else if k = "text" then
            match getField fields "pos", getField fields "text",
                getField fields "font", getField fields "fill_style",
                getField fields "text_align" with
            | some pv, some (JValue.str t), some (JValue.str f),
                some (JValue.str fs), some (JValue.str ta) =>
                match decodePoint pv with
                | some p => some (Command.text p t f fs ta)
                | none => none
            | _, _, _, _, _ => none
          else none
      | _ => none
  | _ => none

/-- Serialize a command sequence as a structural array. -/
def encodeCommandList (cmds : List Command) : JValue :=
  JValue.arr (cmds.map encodeCommand)

/-- Deserialize each element of a structural array element list. -/
def decodeCommands : List JValue → Option (List Command)
  | [] => some []
  | v :: rest =>
      match decodeCommand v, decodeCommands rest with
      | some c, some cs => some (c :: cs)
      | _, _ => none

/-- Deserialize a command sequence from a structural array. -/
def decodeCommandList : JValue → Option (List Command)
  | JValue.arr elems => decodeCommands elems
  | _ => none

/-- Serialize an input snapshot to its structural representation. -/
def encodeSnapshot (snap : InputSnapshot) : JValue :=
  JValue.obj [("mouse_pos", encodePoint snap.mouse_pos),
    ("screen_size", encodePoint snap.screen_size)]

/-- Deserialize an input snapshot from its structural representation. -/
def decodeSnapshot : JValue → Option InputSnapshot
  | JValue.obj fields =>
      match getField fields "mouse_pos", getField fields "screen_size" with
      | some mv, some sv =>
          match decodePoint mv, decodePoint sv with
          | some m, some s => some ⟨m, s⟩
          | _, _ => none
      | _, _ => none
  | _ => none

/-- The rectangle path from `pos` to `pos + size` traced clockwise with a
degenerate quadratic curve (control point equal to both endpoints) at each
exact corner: the shape of the `rounded_rect` trace when `corner_radius`
is zero. -/
def rectPathOps (style : String) (pos size : Point) : List Op :=
  [Op.setFillStyle style,
   Op.beginPath,
   Op.moveTo ⟨pos.x, pos.y⟩,
   Op.lineTo ⟨pos.x + size.x, pos.y⟩,
   Op.quadraticCurveTo ⟨pos.x + size.x, pos.y⟩ ⟨pos.x + size.x, pos.y⟩,
   Op.lineTo ⟨pos.x + size.x, pos.y + size.y⟩,
   Op.quadraticCurveTo ⟨pos.x + size.x, pos.y + size.y⟩
     ⟨pos.x + size.x, pos.y + size.y⟩,
   Op.lineTo ⟨pos.x, pos.y + size.y⟩,
   Op.quadraticCurveTo ⟨pos.x, pos.y + size.y⟩ ⟨pos.x, pos.y + size.y⟩,
   Op.lineTo ⟨pos.x, pos.y⟩,
   Op.quadraticCurveTo ⟨pos.x, pos.y⟩ ⟨pos.x, pos.y⟩,
   Op.closePath,
   Op.fill]

/-- Interpreting a command list with a left fold (the `for` loop of
`paint_gui`) appends, to the accumulator, the concatenation of each
command's trace in order. -/
theorem foldl_paint_eq_join (canvas : Surface) (cmds : List Cmd)
    (acc : List Op) :
    cmds.foldl (fun ops cmd => ops ++ paintCommand canvas cmd) acc =
      acc ++ (cmds.map (paintCommand canvas)).flatten := by
  induction cmds generalizing acc with
  | nil => simp
  | cons c cs ih => simp [ih, List.append_assoc]

/-- Deserializing the structural representation of a point recovers it. -/
theorem decodePoint_encodePoint (p : Point) :
    decodePoint (encodePoint p) = some p := rfl

/-- Deserializing the structural representation of a command recovers it. -/
theorem decodeCommand_encodeCommand (c : Command) :
    decodeCommand (encodeCommand c) = some c := by
  cases c <;> rfl

/-- Deserializing element-wise encoded command lists recovers them. -/
theorem decodeCommands_map_encode (cmds : List Command) :
    decodeCommands (cmds.map encodeCommand) = some cmds := by
  induction cmds with
  | nil => rfl
  | cons c cs ih => simp [decodeCommands, decodeCommand_encodeCommand, ih]

/-- C1 counterexample: interpreting a concrete `clear` command does not
issue only the full-surface clear-rect — a set-fill-color operation is
issued first (the source assigns `ctx.fillStyle = cmd.fill_style` before
`ctx.clearRect`). -/
theorem clear_not_only_clearRect_counterexample :
    paintCommand ⟨800, 600⟩ (mkClear "#111111") ≠
      [Op.clearRect 0 0 800 600] ∧
    Op.setFillStyle "#111111" ∈ paintCommand ⟨800, 600⟩ (mkClear "#111111") := by
  decide

/-- C1 (amended): interpreting a `clear` command sets the fill color and
then issues exactly one full-surface clear-rect covering [0,0] to
[surfaceWidth, surfaceHeight], and nothing else; the fill style is set but
never applied as a fill (no fill operation is issued). -/
theorem clear_sets_fill_style_then_clears (s : Surface) (cmd : Cmd)
    (h : cmd.kind = "clear") :
    paintCommand s cmd =
      [Op.setFillStyle cmd.fill_style,
       Op.clearRect 0 0 s.width s.height] := by
  simp [paintCommand, h]

/-- C1 witness: the amended claim evaluated on a concrete `clear` command
against an 800 by 600 surface. -/
theorem clear_sets_fill_style_then_clears_witness :
    (mkClear "#111111").kind = "clear" ∧
    paintCommand ⟨800, 600⟩ (mkClear "#111111") =
      [Op.setFillStyle "#111111", Op.clearRect 0 0 800 600] :=
  ⟨rfl, clear_sets_fill_style_then_clears ⟨800, 600⟩ (mkClear "#111111") rfl⟩

/-- C2: a command whose `kind` is none of the five recognized values
produces zero surface operations (the `switch` falls through all cases);
the interpreter is total, so no exception is raised. -/
theorem unknown_kind_is_noop (s : Surface) (cmd : Cmd)
    (h₁ : cmd.kind ≠ "clear") (h₂ : cmd.kind ≠ "line")
    (h₃ : cmd.kind ≠ "circle") (h₄ : cmd.kind ≠ "rounded_rect")
    (h₅ : cmd.kind ≠ "text") :
    paintCommand s cmd = [] := by
  simp [paintCommand, h₁, h₂, h₃, h₄, h₅]

/-- C2 witness: a command of kind "triangle" produces no surface
operation. -/
theorem unknown_kind_is_noop_witness :
    (mkKindOnly "triangle").kind ≠ "clear" ∧
    (mkKindOnly "triangle").kind ≠ "line" ∧
    (mkKindOnly "triangle").kind ≠ "circle" ∧
    (mkKindOnly "triangle").kind ≠ "rounded_rect" ∧
    (mkKindOnly "triangle").kind ≠ "text" ∧
    paintCommand ⟨800, 600⟩ (mkKindOnly "triangle") = [] :=
  ⟨by decide, by decide, by decide, by decide, by decide,
    unknown_kind_is_noop ⟨800, 600⟩ (mkKindOnly "triangle") (by decide)
      (by decide) (by decide) (by decide) (by decide)⟩

/-- C3: interpreting a `rounded_rect` command sets the fill color, then
builds one closed path of 8 segments clockwise starting on the top edge
just right of the top-left corner — top edge, top-right corner, right
edge, bottom-right corner, bottom edge, bottom-left corner, left edge,
top-left corner — where each corner is a quadratic curve whose control
point is the exact rectangle corner and whose endpoints are offset by
`corner_radius` along the two adjoining edges, then closes the path and
fills it. -/
theorem rounded_rect_ops (s : Surface) (cmd : Cmd)
    (h : cmd.kind = "rounded_rect") :
    paintCommand s cmd =
      [Op.setFillStyle cmd.fill_style,
       Op.beginPath,
       Op.moveTo ⟨cmd.pos.x + cmd.corner_radius, cmd.pos.y⟩,
       Op.lineTo ⟨cmd.pos.x + cmd.size.x - cmd.corner_radius, cmd.pos.y⟩,
       Op.quadraticCurveTo ⟨cmd.pos.x + cmd.size.x, cmd.pos.y⟩
         ⟨cmd.pos.x + cmd.size.x, cmd.pos.y + cmd.corner_radius⟩,
       Op.lineTo ⟨cmd.pos.x + cmd.size.x, cmd.pos.y + cmd.size.y - cmd.corner_radius⟩,
       Op.quadraticCurveTo ⟨cmd.pos.x + cmd.size.x, cmd.pos.y + cmd.size.y⟩
         ⟨cmd.pos.x + cmd.size.x - cmd.corner_radius, cmd.pos.y + cmd.size.y⟩,
       Op.lineTo ⟨cmd.pos.x + cmd.corner_radius, cmd.pos.y + cmd.size.y⟩,
       Op.quadraticCurveTo ⟨cmd.pos.x, cmd.pos.y + cmd.size.y⟩
         ⟨cmd.pos.x, cmd.pos.y + cmd.size.y - cmd.corner_radius⟩,
       Op.lineTo ⟨cmd.pos.x, cmd.pos.y + cmd.corner_radius⟩,
       Op.quadraticCurveTo ⟨cmd.pos.x, cmd.pos.y⟩
         ⟨cmd.pos.x + cmd.corner_radius, cmd.pos.y⟩,
       Op.closePath,
       Op.fill] := by
  simp [paintCommand, h]

/-- C3 witness: the rounded-rect path evaluated on the spec's end-to-end
example (pos (100,100), size (200,100), corner radius 20). -/
theorem rounded_rect_ops_witness :
    (mkRoundedRect ⟨100, 100⟩ ⟨200, 100⟩ 20 "#ff1111").kind = "rounded_rect" ∧
    paintCommand ⟨800, 600⟩ (mkRoundedRect ⟨100, 100⟩ ⟨200, 100⟩ 20 "#ff1111") =
      [Op.setFillStyle "#ff1111",
       Op.beginPath,
       Op.moveTo ⟨120, 100⟩,
       Op.lineTo ⟨280, 100⟩,
       Op.quadraticCurveTo ⟨300, 100⟩ ⟨300, 120⟩,
       Op.lineTo ⟨300, 180⟩,
       Op.quadraticCurveTo ⟨300, 200⟩ ⟨280, 200⟩,
       Op.lineTo ⟨120, 200⟩,
       Op.quadraticCurveTo ⟨100, 200⟩ ⟨100, 180⟩,
       Op.lineTo ⟨100, 120⟩,
       Op.quadraticCurveTo ⟨100, 100⟩ ⟨120, 100⟩,
       Op.closePath,
       Op.fill] := by
  refine ⟨rfl, ?_⟩
  rw [rounded_rect_ops ⟨800, 600⟩ (mkRoundedRect ⟨100, 100⟩ ⟨200, 100⟩ 20 "#ff1111") rfl]
  norm_num [mkRoundedRect, pzero]

/-- C4: interpreting a `circle` command, whatever the value of `radius`,
sets the fill color, begins a new path, traces a single arc centered at
`center` with the given radius from start angle 0 to end angle 2π (recorded
in multiples of π as 0 and 2) with no direction reversal (anticlockwise
false), and fills it. -/
theorem circle_ops (s : Surface) (cmd : Cmd) (h : cmd.kind = "circle") :
    paintCommand s cmd =
      [Op.setFillStyle cmd.fill_style,
       Op.beginPath,
       Op.arc cmd.center cmd.radius 0 2 false,
       Op.fill] := by
  simp [paintCommand, h]

/-- C4 witness: the circle trace evaluated on a concrete command, with a
negative radius to exhibit that the sweep does not depend on `radius`. -/
theorem circle_ops_witness :
    (mkCircle ⟨40, 50⟩ (-5) "#00ff00").kind = "circle" ∧
    paintCommand ⟨800, 600⟩ (mkCircle ⟨40, 50⟩ (-5) "#00ff00") =
      [Op.setFillStyle "#00ff00",
       Op.beginPath,
       Op.arc ⟨40, 50⟩ (-5) 0 2 false,
       Op.fill] :=
  ⟨rfl, circle_ops ⟨800, 600⟩ (mkCircle ⟨40, 50⟩ (-5) "#00ff00") rfl⟩

/-- C5: for every input snapshot, the frame driver invokes the logic layer
with the snapshot built from the pointer position and the surface
dimensions, and its operation trace is exactly the in-order concatenation
of the traces of the returned commands: each command is interpreted exactly
once, in sequence order, so later commands' operations are issued after
earlier ones'. -/
theorem paint_gui_interprets_in_order (canvas : Surface)
    (logic : InputSnapshot → List Cmd) (mouse_pos : Point) :
    paint_gui canvas logic mouse_pos =
      ((logic ⟨mouse_pos, ⟨canvas.width, canvas.height⟩⟩).map
        (paintCommand canvas)).flatten := by
  unfold paint_gui
  rw [foldl_paint_eq_join]
  simp

/-- C6: the input adapter translates a raw pointer event to surface-local
coordinates by subtracting the surface's bounding-box origin from the
event's client coordinates; in particular client (150,150) over a surface
whose bounding-box top-left is (50,50) yields local point (100,100). -/
theorem mouse_pos_from_event_translates :
    (∀ (rect : DomRect) (evt : MouseEvent),
      mouse_pos_from_event rect evt =
        ⟨evt.clientX - rect.left, evt.clientY - rect.top⟩) ∧
    mouse_pos_from_event ⟨50, 50⟩ ⟨150, 150⟩ = ⟨100, 100⟩ := by
  refine ⟨fun rect evt => rfl, ?_⟩
  norm_num [mouse_pos_from_event]

/-- C7: the logic-layer boundary is loss-less — serializing any input
snapshot or any command sequence to its structural representation and
deserializing it back recovers the original value field-for-field. -/
theorem boundary_roundtrip_lossless :
    (∀ snap : InputSnapshot, decodeSnapshot (encodeSnapshot snap) = some snap) ∧
    (∀ cmds : List Command, decodeCommandList (encodeCommandList cmds) = some cmds) := by
  constructor
  · intro snap; rfl
  · intro cmds
    simp [decodeCommandList, encodeCommandList, decodeCommands_map_encode]

/-- C8: if the logic layer fails when invoked by the frame driver, the
failure propagates uncaught out of `paint_gui` and that frame's render is
aborted entirely: the interpretation loop never runs and no surface
operation is issued. -/
theorem logic_failure_aborts_frame (canvas : Surface)
    (logic : InputSnapshot → Except String (List Cmd)) (mouse_pos : Point)
    (e : String)
    (h : logic ⟨mouse_pos, ⟨canvas.width, canvas.height⟩⟩ = Except.error e) :
    paint_gui_except canvas logic mouse_pos = Except.error e := by
  simp [paint_gui_except, h]

/-- C8 witness: a logic layer that always fails aborts the frame with its
error and no operation trace. -/
theorem logic_failure_aborts_frame_witness :
    (fun _ : InputSnapshot =>
      (Except.error "wasm failure" : Except String (List Cmd)))
        ⟨⟨0, 0⟩, ⟨800, 600⟩⟩ = Except.error "wasm failure" ∧
    paint_gui_except ⟨800, 600⟩
      (fun _ => Except.error "wasm failure") ⟨0, 0⟩ =
        Except.error "wasm failure" :=
  ⟨rfl,
    logic_failure_aborts_frame ⟨800, 600⟩
      (fun _ => Except.error "wasm failure") ⟨0, 0⟩ "wasm failure" rfl⟩

/-- C9: for a `rounded_rect` command with `corner_radius` zero, the trace
degenerates to the axis-aligned rectangle from `pos` to `pos + size`: the
path is the rectangle outline with a degenerate quadratic curve at each
exact corner, and every quadratic curve's endpoint coincides with its
control point. -/
theorem rounded_rect_zero_radius_degenerates (s : Surface) (cmd : Cmd)
    (hk : cmd.kind = "rounded_rect") (hr : cmd.corner_radius = 0) :
    paintCommand s cmd = rectPathOps cmd.fill_style cmd.pos cmd.size ∧
    ∀ ctrl endp : Point,
      Op.quadraticCurveTo ctrl endp ∈ paintCommand s cmd → endp = ctrl := by
  have h1 : paintCommand s cmd = rectPathOps cmd.fill_style cmd.pos cmd.size := by
    simp [paintCommand, rectPathOps, hk, hr]
  refine ⟨h1, ?_⟩
  rw [h1]
  intro ctrl endp hm
  simp only [rectPathOps, List.mem_cons, List.not_mem_nil, or_false] at hm
  rcases hm with h | h | h | h | h | h | h | h | h | h | h | h | h <;>
    simp_all

/-- C9 witness: the degenerate path evaluated on a concrete zero-radius
rounded rectangle. -/
theorem rounded_rect_zero_radius_degenerates_witness :
    (mkRoundedRect ⟨3, 4⟩ ⟨10, 20⟩ 0 "#ffffff").kind = "rounded_rect" ∧
    (mkRoundedRect ⟨3, 4⟩ ⟨10, 20⟩ 0 "#ffffff").corner_radius = 0 ∧
    (paintCommand ⟨800, 600⟩ (mkRoundedRect ⟨3, 4⟩ ⟨10, 20⟩ 0 "#ffffff") =
        rectPathOps "#ffffff" ⟨3, 4⟩ ⟨10, 20⟩ ∧
      ∀ ctrl endp : Point,
        Op.quadraticCurveTo ctrl endp ∈
            paintCommand ⟨800, 600⟩ (mkRoundedRect ⟨3, 4⟩ ⟨10, 20⟩ 0 "#ffffff") →
          endp = ctrl) :=
  ⟨rfl, rfl,
    rounded_rect_zero_radius_degenerates ⟨800, 600⟩
      (mkRoundedRect ⟨3, 4⟩ ⟨10, 20⟩ 0 "#ffffff") rfl rfl⟩

/-- C10: for every command whose `kind` is not `clear`, the trace is
independent of the surface's dimensions — interpreting the same command
against two different surfaces issues identical operation sequences. -/
theorem paintCommand_independent_of_surface (cmd : Cmd)
    (h : cmd.kind ≠ "clear") (s₁ s₂ : Surface) :
    paintCommand s₁ cmd = paintCommand s₂ cmd := by
  simp [paintCommand, h]

/-- C10 witness: a concrete circle command painted identically on an
800 by 600 surface and a 10 by 20 surface. -/
theorem paintCommand_independent_of_surface_witness :
    (mkCircle ⟨1, 2⟩ 3 "#abcabc").kind ≠ "clear" ∧
    paintCommand ⟨800, 600⟩ (mkCircle ⟨1, 2⟩ 3 "#abcabc") =
      paintCommand ⟨10, 20⟩ (mkCircle ⟨1, 2⟩ 3 "#abcabc") :=
  ⟨by decide,
    paintCommand_independent_of_surface (mkCircle ⟨1, 2⟩ 3 "#abcabc")
      (by decide) ⟨800, 600⟩ ⟨10, 20⟩⟩

end Emigui
